import Mathlib

/-!
Verification of the Soundimals WebGL template's layout and loading logic
(`TemplateData/scripts/scripts.js`).  The JavaScript functions are embedded
as pure Lean functions over exact rationals; DOM mutations become explicit
state records, and timer-driven behaviour (banner auto-dismiss) is modelled
by an explicit discrete timeline.
-/

namespace Soundimals

/-! ## Design resolution constants (`canvas.originalWidth/Height = 750/1334`) -/

def designWidth : ℚ := 750

def designHeight : ℚ := 1334

/-! ## Mobile fit computation

Embeds the scaling step of `adjustMobileCanvasSize` (scripts.js lines
355-378): compare the screen aspect ratio with the design aspect ratio and
fill by height when the screen is wider, by width when it is taller. -/

def mobileFitSize (windowWidth windowHeight : ℚ) : ℚ × ℚ :=
  let aspectRatio := designWidth / designHeight
  let screenAspectRatio := windowWidth / windowHeight
  if screenAspectRatio > aspectRatio then
    (windowHeight * aspectRatio, windowHeight)
  else
    (windowWidth, windowWidth / aspectRatio)

/-! ## Desktop fit computation

Embeds `adjustDesktopCanvasSize` (scripts.js lines 77-115): aspect-ratio
preserving fit clamped above by the design size and below by half the
design size, each clamp re-deriving the paired dimension from the ratio. -/

def adjustDesktopCanvasSize (windowWidth windowHeight : ℚ) : ℚ × ℚ :=
  let aspectRatio := designWidth / designHeight
  let first :=
    if windowWidth / windowHeight > aspectRatio then
      (min windowHeight designHeight * aspectRatio, min windowHeight designHeight)
    else
      (min windowWidth designWidth, min windowWidth designWidth / aspectRatio)
  let minWidth := designWidth / 2
  let minHeight := designHeight / 2
  let second :=
    if first.1 < minWidth then (minWidth, minWidth / aspectRatio) else first
  if second.2 < minHeight then (minHeight * aspectRatio, minHeight) else second

/-! ## Mobile state: baseline snapshot and keyboard substitution

`canvas.initialScreenHeight/Width` and `canvas.initialWindowHeight/Width`
are stored together under the guard `if (!canvas.initialScreenHeight)`.
They are modelled as one optional `Baseline` record; JavaScript number
truthiness of the stored screen height becomes a `= 0` test. -/

structure Baseline where
  screenHeight : ℚ
  screenWidth : ℚ
  windowHeight : ℚ
  windowWidth : ℚ
deriving DecidableEq, Repr

/-- Environment observed by one invocation of `adjustMobileCanvasSize`:
device class, `window.screen` dimensions, the resolved viewport size
(`visualViewport` if available, else `window.inner*`), and the iOS
safe-area insets read from CSS variables. -/
structure MobileEnv where
  isIOS : Bool
  screenWidth : ℚ
  screenHeight : ℚ
  viewportWidth : ℚ
  viewportHeight : ℚ
  safeAreaTop : ℚ
  safeAreaBottom : ℚ
  safeAreaLeft : ℚ
  safeAreaRight : ℚ
deriving DecidableEq, Repr

/-- The guard `!canvas.initialScreenHeight`: true when the snapshot was
never taken, or when the stored screen height is the falsy number 0. -/
def baselineUnset : Option Baseline → Bool
  | none => true
  | some b => decide (b.screenHeight = 0)

/-- The snapshot block of `adjustMobileCanvasSize` (scripts.js lines
320-326): capture screen and window dimensions when the guard fires,
otherwise keep the stored record. -/
def captureBaseline (env : MobileEnv) (w h : ℚ) : Option Baseline → Baseline
  | none =>
    { screenHeight := env.screenHeight, screenWidth := env.screenWidth,
      windowHeight := h, windowWidth := w }
  | some b =>
    if b.screenHeight = 0 then
      { screenHeight := env.screenHeight, screenWidth := env.screenWidth,
        windowHeight := h, windowWidth := w }
    else b

/-- Result of one invocation of `adjustMobileCanvasSize`: the (possibly
re-captured) baseline, the viewport dimensions after the iOS safe-area and
screen adjustments (`currentWidth/Height`), the keyboard-open decision,
the dimensions actually fed to the fit computation (`usedWidth/Height`),
and the computed CSS display size. -/
structure MobileFitResult where
  baseline : Baseline
  currentWidth : ℚ
  currentHeight : ℚ
  keyboardOpen : Bool
  usedWidth : ℚ
  usedHeight : ℚ
  displayWidth : ℚ
  displayHeight : ℚ
deriving DecidableEq, Repr

/-- Embeds `adjustMobileCanvasSize` (scripts.js lines 288-378): resolve the
viewport, apply iOS safe-area subtraction and (while the snapshot guard is
open) the screen-dimension clamp, take the baseline snapshot under the
`!canvas.initialScreenHeight` guard, detect the keyboard via
`heightReduction > 150` and substitute the frozen baseline dimensions when
it is open, then run the aspect-ratio fit. -/
def adjustMobileCanvasSize (env : MobileEnv) (b : Option Baseline) : MobileFitResult :=
  let w0 := env.viewportWidth
  let h0 := env.viewportHeight
  let w1 := if env.isIOS then w0 - env.safeAreaLeft - env.safeAreaRight else w0
  let h1 := if env.isIOS then h0 - env.safeAreaTop - env.safeAreaBottom else h0
  let w2 := if env.isIOS && baselineUnset b then min w1 env.screenWidth else w1
  let h2 := if env.isIOS && baselineUnset b then min h1 env.screenHeight else h1
  let bb := captureBaseline env w2 h2 b
  let heightReduction := bb.windowHeight - h2
  let isKeyboardOpen : Bool := decide (heightReduction > 150)
  let w3 := if isKeyboardOpen then bb.windowWidth else w2
  let h3 := if isKeyboardOpen then bb.windowHeight else h2
  let d := mobileFitSize w3 h3
  { baseline := bb, currentWidth := w2, currentHeight := h2,
    keyboardOpen := isKeyboardOpen, usedWidth := w3, usedHeight := h3,
    displayWidth := d.1, displayHeight := d.2 }

/-- A sequence of mobile-fit invocations, threading the stored baseline. -/
def runMobile : Option Baseline → List MobileEnv → Option Baseline
  | b, [] => b
  | b, env :: envs => runMobile (some (adjustMobileCanvasSize env b).baseline) envs

/-! ## iOS keyboard visibility watcher

Embeds the handler body shared by the `visualViewport` resize listener and
the window-resize fallback in `setupIOSKeyboardHandling` (scripts.js lines
185-229).  `originalViewportHeight` is the baseline captured at watcher
installation; `keyboardVisible` starts `false`. -/

def iosKeyboardInitial : Bool := false

def iosKeyboardStep (originalViewportHeight currentHeight : ℚ)
    (keyboardVisible : Bool) : Bool :=
  let heightDiff := originalViewportHeight - currentHeight
  if heightDiff > 150 ∧ keyboardVisible = false then true
  else if heightDiff ≤ 50 ∧ keyboardVisible = true then false
  else keyboardVisible

/-! ## Device detection and device-class branches

`InitializeDOM` (scripts.js lines 43-46) classifies the device with three
case-insensitive regular-expression tests over `navigator.userAgent`.
Each regex is an alternation of literal tokens, embedded as
case-insensitive substring tests. -/

def lowerChar (c : Char) : Char :=
  if 65 ≤ c.toNat ∧ c.toNat ≤ 90 then Char.ofNat (c.toNat + 32) else c

def leadMatch : List Char → List Char → Bool
  | [], _ => true
  | _ :: _, [] => false
  | p :: ps, c :: cs => p == c && leadMatch ps cs

def subMatch (pat : List Char) : List Char → Bool
  | [] => leadMatch pat []
  | c :: cs => leadMatch pat (c :: cs) || subMatch pat cs

/-- Case-insensitive substring containment: the meaning of
`/token/i.test(ua)` for a literal token. -/
def uaHas (ua pat : String) : Bool :=
  subMatch (pat.data.map lowerChar) (ua.data.map lowerChar)

/-- Embeds `canvas.isMobileDevice = /iPhone|iPad|iPod|Android/i.test(ua)`. -/
def testMobile (ua : String) : Bool :=
  uaHas ua "iPhone" || uaHas ua "iPad" || uaHas ua "iPod" || uaHas ua "Android"

/-- Embeds `canvas.isIOS = /iPhone|iPad|iPod/i.test(ua)`. -/
def testIOS (ua : String) : Bool :=
  uaHas ua "iPhone" || uaHas ua "iPad" || uaHas ua "iPod"

/-- Embeds `canvas.isAndroid = /Android/i.test(ua)`. -/
def testAndroid (ua : String) : Bool :=
  uaHas ua "Android"

/-- The viewport meta tag content chosen in `setupMobileCanvas`
(scripts.js lines 129-135), keyed on `canvas.isIOS`. -/
def viewportMetaContent (ios : Bool) : String :=
  if ios then
    "width=device-width, initial-scale=1.0, maximum-scale=1.0, user-scalable=no, viewport-fit=cover"
  else
    "width=device-width, height=device-height, initial-scale=1.0, user-scalable=no, shrink-to-fit=yes"

/-- In `setupMobileCanvas`, `setupIOSKeyboardHandling` is installed exactly when
`canvas.isIOS` (scripts.js lines 168-176). -/
def installsKeyboardWatcher (ios : Bool) : Bool := ios

/-- The backing-resolution multiplier in `applyCanvasDimensions`
(scripts.js line 392): `canvas.isIOS ? 2.0 : 3.4`. -/
def backingMultiplier (ios : Bool) : ℚ :=
  if ios then 2 else 34 / 10

/-! ## Banner display

Embeds `unityShowBanner` (scripts.js lines 436-456).  Each appended `div`
becomes a `BannerEntry` carrying its message, the inline style assigned to
it (none for unrecognized types), and the time at which its scheduled
`setTimeout` removal fires (none when no removal is scheduled).  The
container state tracks the current time, the children list, and the
`style.display` value maintained by `updateBannerVisibility`. -/

structure BannerEntry where
  msg : String
  style : Option String
  expiry : Option ℕ
deriving DecidableEq, Repr

structure BannerState where
  now : ℕ
  entries : List BannerEntry
  display : String
deriving DecidableEq, Repr

/-- Embeds `warningBanner.style.display = warningBanner.children.length ? 'block' : 'none'`. -/
def updateBannerVisibility (entries : List BannerEntry) : String :=
  if entries.length = 0 then "none" else "block"

def errorStyle : String := "background: red; padding: 10px;"

def warningStyle : String := "background: yellow; padding: 10px;"

/-- The `setTimeout` delay used for warning messages (5000 ms). -/
def bannerDelay : ℕ := 5000

/-- Embeds `unityShowBanner(msg, type)`: append a child, style it red for
`error`, yellow with a removal scheduled `bannerDelay` later for
`warning`, leave it unstyled otherwise, then update visibility. -/
def unityShowBanner (msg mtype : String) (s : BannerState) : BannerState :=
  let div : BannerEntry :=
    if mtype = "error" then
      { msg := msg, style := some errorStyle, expiry := none }
    else if mtype = "warning" then
      { msg := msg, style := some warningStyle, expiry := some (s.now + bannerDelay) }
    else
      { msg := msg, style := none, expiry := none }
  let entries := s.entries ++ [div]
  { now := s.now, entries := entries, display := updateBannerVisibility entries }

/-- Children still present at time `t`: a scheduled removal callback has
run exactly when its fire time is ≤ `t`. -/
def fireExpired (t : ℕ) (entries : List BannerEntry) : List BannerEntry :=
  entries.filter fun e =>
    match e.expiry with
    | none => true
    | some te => decide (t < te)

/-- Advance the timeline to time `t`: every due removal callback runs
(`warningBanner.removeChild(div)` followed by `updateBannerVisibility()`). -/
def advanceTo (t : ℕ) (s : BannerState) : BannerState :=
  let entries := fireExpired t s.entries
  { now := t, entries := entries, display := updateBannerVisibility entries }

/-! ## Load bootstrap

Embeds the continuations wired in `loadUnityGame` (scripts.js lines
525-545).  The DOM mutations and the alert become explicit effects. -/

inductive LoadEffect where
  | setLoadingBarDisplay (value : String)
  | setProgressBarWidth (pct : ℚ)
  | addBodyClass (cls : String)
  | alertMessage (msg : String)
  | showBannerCall (msg mtype : String)
  | createInstanceCall
deriving DecidableEq, Repr

/-- Progress callback: `progressBarFull.style.width` becomes `100*progress` percent. -/
def onInstantiationProgress (hasProgressBar : Bool) (progress : ℚ) : List LoadEffect :=
  if hasProgressBar then [LoadEffect.setProgressBarWidth (100 * progress)] else []

/-- The `.then`/`.catch` continuations of `createUnityInstance`: on
success hide the loading bar and add the `unity-loaded` body class; on
rejection hide the loading bar and `alert(message)`. -/
def onInstantiationSettled (hasLoadingBar : Bool) :
    Except String Unit → List LoadEffect
  | Except.ok _ =>
    (if hasLoadingBar then [LoadEffect.setLoadingBarDisplay "none"] else [])
      ++ [LoadEffect.addBodyClass "unity-loaded"]
  | Except.error m =>
    (if hasLoadingBar then [LoadEffect.setLoadingBarDisplay "none"] else [])
      ++ [LoadEffect.alertMessage m]

/-! ## Concrete environments used by counterexamples and witnesses -/

/-- Android-class environment whose `window.screen.height` is reported as 0,
viewport 400×800. -/
def envZeroA : MobileEnv :=
  { isIOS := false, screenWidth := 400, screenHeight := 0,
    viewportWidth := 400, viewportHeight := 800,
    safeAreaTop := 0, safeAreaBottom := 0, safeAreaLeft := 0, safeAreaRight := 0 }

/-- Same zero-screen-height environment after the viewport shrank to 400×600. -/
def envZeroB : MobileEnv :=
  { isIOS := false, screenWidth := 400, screenHeight := 0,
    viewportWidth := 400, viewportHeight := 600,
    safeAreaTop := 0, safeAreaBottom := 0, safeAreaLeft := 0, safeAreaRight := 0 }

/-- Android-class environment with a healthy screen height, viewport 400×800. -/
def envLiveA : MobileEnv :=
  { isIOS := false, screenWidth := 400, screenHeight := 900,
    viewportWidth := 400, viewportHeight := 800,
    safeAreaTop := 0, safeAreaBottom := 0, safeAreaLeft := 0, safeAreaRight := 0 }

/-- Same device after the viewport height dropped to 600 (keyboard open). -/
def envLiveB : MobileEnv :=
  { isIOS := false, screenWidth := 400, screenHeight := 900,
    viewportWidth := 400, viewportHeight := 600,
    safeAreaTop := 0, safeAreaBottom := 0, safeAreaLeft := 0, safeAreaRight := 0 }

/-! ## Theorems -/

/-- C3: in the mobile fit strategy, the computation substitutes the frozen
baseline width and height exactly when the captured baseline height exceeds
the current height by more than 150, and uses the live current dimensions
when the difference is at most 150. -/
theorem mobile_keyboard_substitution (env : MobileEnv) (b : Option Baseline) :
    (150 < (adjustMobileCanvasSize env b).baseline.windowHeight
        - (adjustMobileCanvasSize env b).currentHeight →
      (adjustMobileCanvasSize env b).usedWidth
          = (adjustMobileCanvasSize env b).baseline.windowWidth ∧
      (adjustMobileCanvasSize env b).usedHeight
          = (adjustMobileCanvasSize env b).baseline.windowHeight) ∧
    ((adjustMobileCanvasSize env b).baseline.windowHeight
        - (adjustMobileCanvasSize env b).currentHeight ≤ 150 →
      (adjustMobileCanvasSize env b).usedWidth
          = (adjustMobileCanvasSize env b).currentWidth ∧
      (adjustMobileCanvasSize env b).usedHeight
          = (adjustMobileCanvasSize env b).currentHeight) := by
  simp only [adjustMobileCanvasSize]
  constructor <;> intro hred <;> split_ifs at * with hk <;>
    simp_all <;> linarith

/-- C3 witness: on `envLiveB` with the baseline captured from `envLiveA`,
the height reduction is 200 > 150 and the frozen baseline height 800 is
used instead of the live 600. -/
theorem mobile_keyboard_substitution_witness :
    150 < (adjustMobileCanvasSize envLiveB
            (some (adjustMobileCanvasSize envLiveA none).baseline)).baseline.windowHeight
        - (adjustMobileCanvasSize envLiveB
            (some (adjustMobileCanvasSize envLiveA none).baseline)).currentHeight ∧
    (adjustMobileCanvasSize envLiveB
        (some (adjustMobileCanvasSize envLiveA none).baseline)).usedHeight
      = (adjustMobileCanvasSize envLiveB
          (some (adjustMobileCanvasSize envLiveA none).baseline)).baseline.windowHeight :=
  ⟨by norm_num [adjustMobileCanvasSize, captureBaseline, baselineUnset,
      envLiveA, envLiveB],
   ((mobile_keyboard_substitution envLiveB
      (some (adjustMobileCanvasSize envLiveA none).baseline)).1
      (by norm_num [adjustMobileCanvasSize, captureBaseline, baselineUnset,
          envLiveA, envLiveB])).2⟩

/-- The stored baseline survives any further sequence of mobile-fit
invocations as long as its recorded screen height is nonzero. -/
theorem runMobile_preserves_baseline (bb : Baseline) (hbb : bb.screenHeight ≠ 0) :
    ∀ envs : List MobileEnv, runMobile (some bb) envs = some bb := by
  intro envs
  induction envs with
  | nil => rfl
  | cons env envs ih =>
    have hb : (adjustMobileCanvasSize env (some bb)).baseline = bb := by
      simp [adjustMobileCanvasSize, captureBaseline, hbb]
    simpa [runMobile, hb] using ih

/-- C4 (amended): provided the screen height reported at the first
mobile-fit invocation is nonzero, the baseline snapshot is written exactly
once: the first invocation captures the current dimensions, and no later
invocation overwrites the stored record. -/
theorem baseline_written_once (env : MobileEnv) (envs : List MobileEnv)
    (h : env.screenHeight ≠ 0) :
    (adjustMobileCanvasSize env none).baseline.screenHeight = env.screenHeight ∧
    (adjustMobileCanvasSize env none).baseline.windowHeight
      = (adjustMobileCanvasSize env none).currentHeight ∧
    (adjustMobileCanvasSize env none).baseline.windowWidth
      = (adjustMobileCanvasSize env none).currentWidth ∧
    runMobile (some (adjustMobileCanvasSize env none).baseline) envs
      = some (adjustMobileCanvasSize env none).baseline := by
  have hb : (adjustMobileCanvasSize env none).baseline.screenHeight = env.screenHeight := by
    simp [adjustMobileCanvasSize, captureBaseline]
  refine ⟨hb, ?_, ?_, ?_⟩
  · simp [adjustMobileCanvasSize, captureBaseline]
  · simp [adjustMobileCanvasSize, captureBaseline]
  · exact runMobile_preserves_baseline _ (hb ▸ h) envs

/-- C4 witness: with a nonzero screen height (900), the baseline captured
by the first invocation survives two further invocations with a shrunken
viewport. -/
theorem baseline_written_once_witness :
    envLiveA.screenHeight ≠ 0 ∧
    runMobile (some (adjustMobileCanvasSize envLiveA none).baseline) [envLiveB, envLiveB]
      = some (adjustMobileCanvasSize envLiveA none).baseline :=
  ⟨by decide, (baseline_written_once envLiveA [envLiveB, envLiveB] (by decide)).2.2.2⟩

/-- C4 counterexample: when the environment reports `window.screen.height`
as 0, a second invocation of the mobile fit strategy overwrites the
baseline snapshot taken by the first one. -/
theorem baseline_overwritten_counterexample :
    (adjustMobileCanvasSize envZeroB
        (some (adjustMobileCanvasSize envZeroA none).baseline)).baseline
      ≠ (adjustMobileCanvasSize envZeroA none).baseline := by decide

/-- C10: when the reported screen height is 0 (falsy), the first-write
guard fires on every invocation: the baseline is re-captured from the
current dimensions, remains "unset" for the next invocation, and the
keyboard-open detection therefore never exceeds its threshold. -/
theorem baseline_refreshed_when_screen_zero (env : MobileEnv) (b : Option Baseline)
    (hs : env.screenHeight = 0) (hb : baselineUnset b = true) :
    (adjustMobileCanvasSize env b).baseline.windowHeight
      = (adjustMobileCanvasSize env b).currentHeight ∧
    (adjustMobileCanvasSize env b).baseline.windowWidth
      = (adjustMobileCanvasSize env b).currentWidth ∧
    baselineUnset (some (adjustMobileCanvasSize env b).baseline) = true ∧
    (adjustMobileCanvasSize env b).keyboardOpen = false := by
  cases b with
  | none =>
    refine ⟨?_, ?_, ?_, ?_⟩ <;>
      simp [adjustMobileCanvasSize, captureBaseline, baselineUnset, hs]
  | some bb =>
    have hz : bb.screenHeight = 0 := by
      simpa [baselineUnset] using hb
    refine ⟨?_, ?_, ?_, ?_⟩ <;>
      simp [adjustMobileCanvasSize, captureBaseline, baselineUnset, hs, hz]

/-- C10 witness: on `envZeroA` (screen height 0) starting from no stored
baseline, the invocation re-captures the live dimensions, leaves the guard
open and reports the keyboard closed. -/
theorem baseline_refreshed_when_screen_zero_witness :
    envZeroA.screenHeight = 0 ∧ baselineUnset none = true ∧
    ((adjustMobileCanvasSize envZeroA none).baseline.windowHeight
        = (adjustMobileCanvasSize envZeroA none).currentHeight ∧
      (adjustMobileCanvasSize envZeroA none).baseline.windowWidth
        = (adjustMobileCanvasSize envZeroA none).currentWidth ∧
      baselineUnset (some (adjustMobileCanvasSize envZeroA none).baseline) = true ∧
      (adjustMobileCanvasSize envZeroA none).keyboardOpen = false) :=
  ⟨by decide, by decide, baseline_refreshed_when_screen_zero envZeroA none (by decide) (by decide)⟩

/-- C5: the iOS keyboard watcher starts with the keyboard hidden,
transitions to visible exactly when the height drop below the installation
baseline exceeds 150, transitions back to hidden exactly when the drop is
at most 50, and leaves the state unchanged for drops strictly between 50
and 150. -/
theorem ios_keyboard_state_machine :
    iosKeyboardInitial = false ∧
    ∀ (b h : ℚ) (v : Bool),
      (v = false → (iosKeyboardStep b h v = true ↔ 150 < b - h)) ∧
      (v = true → (iosKeyboardStep b h v = false ↔ b - h ≤ 50)) ∧
      (50 < b - h → b - h < 150 → iosKeyboardStep b h v = v) := by
  refine ⟨rfl, fun b h v => ⟨?_, ?_, ?_⟩⟩
  · rintro rfl
    simp only [iosKeyboardStep]
    split_ifs with h1 h2 <;> simp_all
  · rintro rfl
    simp only [iosKeyboardStep]
    split_ifs with h1 h2 <;> simp_all
  · intro hlo hhi
    simp only [iosKeyboardStep]
    split_ifs with h1 h2 <;> simp_all <;> linarith

/-- C5 witness: from the hidden state, a drop of 200 (> 150) fires the
transition to visible. -/
theorem ios_keyboard_state_machine_witness :
    iosKeyboardStep 1000 800 false = true ∧ (150 : ℚ) < 1000 - 800 :=
  ⟨((ios_keyboard_state_machine.2 1000 800 false).1 rfl).mpr (by norm_num),
   by norm_num⟩

/-- C6: when runtime instantiation rejects, the bootstrap hides the
loading indicator and raises a blocking alert with the rejection message;
it emits no banner call and no renewed instantiation attempt. -/
theorem load_failure_alert (m : String) :
    onInstantiationSettled true (Except.error m) =
      [LoadEffect.setLoadingBarDisplay "none", LoadEffect.alertMessage m] ∧
    (∀ bm bt, LoadEffect.showBannerCall bm bt ∉ onInstantiationSettled true (Except.error m)) ∧
    LoadEffect.createInstanceCall ∉ onInstantiationSettled true (Except.error m) := by
  refine ⟨rfl, ?_, ?_⟩ <;> simp [onInstantiationSettled]

/-- C6 witness: the failure policy at the concrete rejection message
"Instantiation failed". -/
theorem load_failure_alert_witness :
    onInstantiationSettled true (Except.error "Instantiation failed") =
      [LoadEffect.setLoadingBarDisplay "none",
       LoadEffect.alertMessage "Instantiation failed"] ∧
    LoadEffect.createInstanceCall
      ∉ onInstantiationSettled true (Except.error "Instantiation failed") :=
  ⟨(load_failure_alert "Instantiation failed").1,
   (load_failure_alert "Instantiation failed").2.2⟩

/-- Closed form of the mobile fit when the screen is wider than the design
ratio: fill by height. -/
theorem mobileFitSize_wide (w h : ℚ) (hc : w / h > designWidth / designHeight) :
    mobileFitSize w h = (h * (designWidth / designHeight), h) := by
  simp only [mobileFitSize, if_pos hc]

/-- Closed form of the mobile fit when the screen is at most as wide as the
design ratio: fill by width. -/
theorem mobileFitSize_tall (w h : ℚ) (hc : ¬ w / h > designWidth / designHeight) :
    mobileFitSize w h = (w, w / (designWidth / designHeight)) := by
  simp only [mobileFitSize, if_neg hc]

/-- C1: for every positive viewport size, the mobile fit computes exactly
the uniform min-scale size `(designW*s, designH*s)` with
`s = min (vw/designW) (vh/designH)`; it never exceeds the viewport, fills
it on at least one axis, and preserves the design aspect ratio exactly. -/
theorem mobile_fit_min_scale (w h : ℚ) (hw : 0 < w) (hh : 0 < h) :
    mobileFitSize w h =
      (designWidth * min (w / designWidth) (h / designHeight),
       designHeight * min (w / designWidth) (h / designHeight)) ∧
    (mobileFitSize w h).1 ≤ w ∧ (mobileFitSize w h).2 ≤ h ∧
    ((mobileFitSize w h).1 = w ∨ (mobileFitSize w h).2 = h) ∧
    (mobileFitSize w h).1 * designHeight = (mobileFitSize w h).2 * designWidth := by
  have h750 : (0 : ℚ) < 750 := by norm_num
  have h1334 : (0 : ℚ) < 1334 := by norm_num
  by_cases hc : w / h > designWidth / designHeight
  · have hlt : 750 * h < w * 1334 := by
      rw [gt_iff_lt, designWidth, designHeight, div_lt_div_iff h1334 hh] at hc
      linarith
    have hmin : min (w / designWidth) (h / designHeight) = h / designHeight := by
      apply min_eq_right
      rw [designWidth, designHeight, div_le_div_iff h1334 h750]
      linarith
    rw [mobileFitSize_wide w h hc, hmin]
    refine ⟨?_, ?_, le_refl h, Or.inr rfl, ?_⟩
    · simp only [designWidth, designHeight, Prod.mk.injEq]
      exact ⟨by ring, by field_simp⟩
    · show h * (designWidth / designHeight) ≤ w
      rw [designWidth, designHeight]
      calc h * (750 / 1334) = h * 750 / 1334 := by ring
        _ ≤ w := by rw [div_le_iff h1334]; linarith
    · show h * (designWidth / designHeight) * designHeight = h * designWidth
      rw [designWidth, designHeight]; ring
  · have hle : w * 1334 ≤ 750 * h := by
      rw [gt_iff_lt, designWidth, designHeight, not_lt, div_le_div_iff hh h1334] at hc
      linarith
    have hmin : min (w / designWidth) (h / designHeight) = w / designWidth := by
      apply min_eq_left
      rw [designWidth, designHeight, div_le_div_iff h750 h1334]
      linarith
    rw [mobileFitSize_tall w h hc, hmin]
    refine ⟨?_, le_refl w, ?_, Or.inl rfl, ?_⟩
    · simp only [designWidth, designHeight, Prod.mk.injEq]
      exact ⟨by field_simp, by rw [div_div_eq_mul_div]; ring⟩
    · show w / (designWidth / designHeight) ≤ h
      rw [designWidth, designHeight]
      calc w / (750 / 1334) = w * 1334 / 750 := by rw [div_div_eq_mul_div]
        _ ≤ h := by rw [div_le_iff h750]; linarith
    · show w * designHeight = w / (designWidth / designHeight) * designWidth
      rw [designWidth, designHeight, div_div_eq_mul_div]
      field_simp

/-- C1 witness: at the concrete mobile viewport 400×800 the fit equals the
min-scale size and the stated bounds hold. -/
theorem mobile_fit_min_scale_witness :
    (0 : ℚ) < 400 ∧ (0 : ℚ) < 800 ∧
    (mobileFitSize 400 800 =
        (designWidth * min (400 / designWidth) (800 / designHeight),
         designHeight * min (400 / designWidth) (800 / designHeight)) ∧
      (mobileFitSize 400 800).1 ≤ 400 ∧ (mobileFitSize 400 800).2 ≤ 800 ∧
      ((mobileFitSize 400 800).1 = 400 ∨ (mobileFitSize 400 800).2 = 800) ∧
      (mobileFitSize 400 800).1 * designHeight
        = (mobileFitSize 400 800).2 * designWidth) :=
  ⟨by norm_num, by norm_num,
   mobile_fit_min_scale 400 800 (by norm_num) (by norm_num)⟩

/-- C2: for every positive window size, the desktop fit preserves the
design aspect ratio exactly and lands inside [design/2, design] on each
axis; in particular the result is always positive. -/
theorem desktop_fit_bounds (ww wh : ℚ) (hww : 0 < ww) (hwh : 0 < wh) :
    (adjustDesktopCanvasSize ww wh).1 * designHeight
      = (adjustDesktopCanvasSize ww wh).2 * designWidth ∧
    designWidth / 2 ≤ (adjustDesktopCanvasSize ww wh).1 ∧
    (adjustDesktopCanvasSize ww wh).1 ≤ designWidth ∧
    designHeight / 2 ≤ (adjustDesktopCanvasSize ww wh).2 ∧
    (adjustDesktopCanvasSize ww wh).2 ≤ designHeight ∧
    0 < (adjustDesktopCanvasSize ww wh).1 ∧
    0 < (adjustDesktopCanvasSize ww wh).2 := by
  simp only [adjustDesktopCanvasSize, designWidth, designHeight]
  rcases le_total wh 1334 with hm | hm <;>
    rcases le_total ww 750 with hn | hn <;>
    simp only [min_eq_left, min_eq_right, hm, hn] <;>
    split_ifs <;>
    refine ⟨?_, ?_, ?_, ?_, ?_, ?_, ?_⟩ <;>
    first
    | ring1
    | linarith
    | norm_num

/-- C2 witness: the stated bounds and exact ratio at the concrete desktop
window 1600×900. -/
theorem desktop_fit_bounds_witness :
    (0 : ℚ) < 1600 ∧ (0 : ℚ) < 900 ∧
    ((adjustDesktopCanvasSize 1600 900).1 * designHeight
        = (adjustDesktopCanvasSize 1600 900).2 * designWidth ∧
      designWidth / 2 ≤ (adjustDesktopCanvasSize 1600 900).1 ∧
      (adjustDesktopCanvasSize 1600 900).1 ≤ designWidth ∧
      designHeight / 2 ≤ (adjustDesktopCanvasSize 1600 900).2 ∧
      (adjustDesktopCanvasSize 1600 900).2 ≤ designHeight ∧
      0 < (adjustDesktopCanvasSize 1600 900).1 ∧
      0 < (adjustDesktopCanvasSize 1600 900).2) :=
  ⟨by norm_num, by norm_num,
   desktop_fit_bounds 1600 900 (by norm_num) (by norm_num)⟩

/-- Appending a child always leaves the banner container visible. -/
theorem updateBannerVisibility_append (es : List BannerEntry) (e : BannerEntry) :
    updateBannerVisibility (es ++ [e]) = "block" := by
  simp [updateBannerVisibility]

/-- The container shows `none` exactly when it holds no children. -/
theorem updateBannerVisibility_eq_none (es : List BannerEntry) :
    updateBannerVisibility es = "none" ↔ es = [] := by
  cases es <;> simp [updateBannerVisibility]

/-- The container shows `block` exactly when it holds a child. -/
theorem updateBannerVisibility_eq_block (es : List BannerEntry) :
    updateBannerVisibility es = "block" ↔ es ≠ [] := by
  cases es <;> simp [updateBannerVisibility]

/-- Closed form of `unityShowBanner` for a warning message. -/
theorem unityShowBanner_warning (msg : String) (s : BannerState) :
    unityShowBanner msg "warning" s =
      { now := s.now,
        entries := s.entries
          ++ [{ msg := msg, style := some warningStyle,
                expiry := some (s.now + bannerDelay) }],
        display := updateBannerVisibility (s.entries
          ++ [{ msg := msg, style := some warningStyle,
                expiry := some (s.now + bannerDelay) }]) } := by
  simp [unityShowBanner]

/-- Closed form of `unityShowBanner` for an error message. -/
theorem unityShowBanner_error (msg : String) (s : BannerState) :
    unityShowBanner msg "error" s =
      { now := s.now,
        entries := s.entries
          ++ [{ msg := msg, style := some errorStyle, expiry := none }],
        display := updateBannerVisibility (s.entries
          ++ [{ msg := msg, style := some errorStyle, expiry := none }]) } := by
  simp [unityShowBanner]

/-- Closed form of `unityShowBanner` for any other message type. -/
theorem unityShowBanner_other (msg mtype : String) (s : BannerState)
    (hne : mtype ≠ "error") (hnw : mtype ≠ "warning") :
    unityShowBanner msg mtype s =
      { now := s.now,
        entries := s.entries ++ [{ msg := msg, style := none, expiry := none }],
        display := updateBannerVisibility (s.entries
          ++ [{ msg := msg, style := none, expiry := none }]) } := by
  simp [unityShowBanner, hne, hnw]

/-- Lemma: `fireExpired` distributes over the appended child. -/
theorem fireExpired_append (t : ℕ) (es : List BannerEntry) (e : BannerEntry) :
    fireExpired t (es ++ [e]) = fireExpired t es ++ fireExpired t [e] := by
  simp [fireExpired]

/-- C7: a warning message makes the container visible immediately, is
styled yellow, stays exactly until the scheduled 5-second removal and is
gone from then on, after which the container is invisible iff no other
children remain; an error message makes the container visible, is styled
red and survives every timer; and after any banner operation the container
is visible exactly when it holds at least one child. -/
theorem banner_warning_error (msg : String) (s : BannerState) :
    (unityShowBanner msg "warning" s).display = "block" ∧
    (unityShowBanner msg "warning" s).entries
      = s.entries ++ [{ msg := msg, style := some warningStyle,
                        expiry := some (s.now + bannerDelay) }] ∧
    (∀ t, t < s.now + bannerDelay →
      (advanceTo t (unityShowBanner msg "warning" s)).entries
        = fireExpired t s.entries
          ++ [{ msg := msg, style := some warningStyle,
                expiry := some (s.now + bannerDelay) }]) ∧
    (∀ t, s.now + bannerDelay ≤ t →
      (advanceTo t (unityShowBanner msg "warning" s)).entries
          = fireExpired t s.entries ∧
      ((advanceTo t (unityShowBanner msg "warning" s)).display = "none" ↔
        fireExpired t s.entries = [])) ∧
    (unityShowBanner msg "error" s).display = "block" ∧
    (unityShowBanner msg "error" s).entries
      = s.entries ++ [{ msg := msg, style := some errorStyle, expiry := none }] ∧
    (∀ t, (advanceTo t (unityShowBanner msg "error" s)).entries
        = fireExpired t s.entries
          ++ [{ msg := msg, style := some errorStyle, expiry := none }]) ∧
    (∀ (m ty : String) (st : BannerState),
      ((unityShowBanner m ty st).display = "block"
        ↔ (unityShowBanner m ty st).entries ≠ [])) ∧
    (∀ (t : ℕ) (st : BannerState),
      ((advanceTo t st).display = "block" ↔ (advanceTo t st).entries ≠ [])) := by
  refine ⟨?_, ?_, ?_, ?_, ?_, ?_, ?_, ?_, ?_⟩
  · rw [unityShowBanner_warning]
    exact updateBannerVisibility_append _ _
  · rw [unityShowBanner_warning]
  · intro t ht
    rw [unityShowBanner_warning]
    simp only [advanceTo, fireExpired_append]
    simp [fireExpired, ht]
  · intro t ht
    rw [unityShowBanner_warning]
    have hgone : fireExpired t
        [{ msg := msg, style := some warningStyle,
           expiry := some (s.now + bannerDelay) }] = [] := by
      simp [fireExpired]
      omega
    constructor
    · simp only [advanceTo, fireExpired_append, hgone, List.append_nil]
    · simp only [advanceTo, fireExpired_append, hgone, List.append_nil]
      exact updateBannerVisibility_eq_none _
  · rw [unityShowBanner_error]
    exact updateBannerVisibility_append _ _
  · rw [unityShowBanner_error]
  · intro t
    rw [unityShowBanner_error]
    simp only [advanceTo, fireExpired_append]
    simp [fireExpired]
  · intro m ty st
    by_cases he : ty = "error"
    · subst he
      rw [unityShowBanner_error]
      simp [updateBannerVisibility_append, updateBannerVisibility_eq_block]
    · by_cases hw : ty = "warning"
      · subst hw
        rw [unityShowBanner_warning]
        simp [updateBannerVisibility_append, updateBannerVisibility_eq_block]
      · rw [unityShowBanner_other m ty st he hw]
        simp [updateBannerVisibility_append, updateBannerVisibility_eq_block]
  · intro t st
    simp only [advanceTo]
    exact updateBannerVisibility_eq_block _

/-- C7 witness: a warning shown at time 0 into an empty container is
visible with a removal scheduled at 5000; at time 4999 it is still there,
at time 5000 it is gone and the container is invisible. -/
theorem banner_warning_error_witness :
    (unityShowBanner "low memory" "warning" ⟨0, [], "none"⟩).display = "block" ∧
    (advanceTo 4999 (unityShowBanner "low memory" "warning" ⟨0, [], "none"⟩)).entries
      = fireExpired 4999 ([] : List BannerEntry)
        ++ [{ msg := "low memory", style := some warningStyle, expiry := some (0 + bannerDelay) }] ∧
    (advanceTo 5000 (unityShowBanner "low memory" "warning" ⟨0, [], "none"⟩)).entries
      = fireExpired 5000 ([] : List BannerEntry) ∧
    (4999 < 0 + bannerDelay) ∧ (0 + bannerDelay ≤ 5000) :=
  ⟨(banner_warning_error "low memory" ⟨0, [], "none"⟩).1,
   (banner_warning_error "low memory" ⟨0, [], "none"⟩).2.2.1 4999
     (by norm_num [bannerDelay]),
   ((banner_warning_error "low memory" ⟨0, [], "none"⟩).2.2.2.1 5000
     (by norm_num [bannerDelay])).1,
   by norm_num [bannerDelay], by norm_num [bannerDelay]⟩

/-- C8: a message whose type is neither `error` nor `warning` is appended
with no styling and no scheduled removal, the container becomes visible,
and the message survives every timer. -/
theorem banner_unrecognized (msg mtype : String) (s : BannerState)
    (hne : mtype ≠ "error") (hnw : mtype ≠ "warning") :
    (unityShowBanner msg mtype s).entries
      = s.entries ++ [{ msg := msg, style := none, expiry := none }] ∧
    (unityShowBanner msg mtype s).display = "block" ∧
    ∀ t, (advanceTo t (unityShowBanner msg mtype s)).entries
        = fireExpired t s.entries
          ++ [{ msg := msg, style := none, expiry := none }] := by
  rw [unityShowBanner_other msg mtype s hne hnw]
  refine ⟨rfl, updateBannerVisibility_append _ _, ?_⟩
  intro t
  simp only [advanceTo, fireExpired_append]
  simp [fireExpired]

/-- C8 witness: the unrecognized type `"info"` is appended unstyled, never
scheduled for removal, and shows the container. -/
theorem banner_unrecognized_witness :
    ("info" : String) ≠ "error" ∧ ("info" : String) ≠ "warning" ∧
    ((unityShowBanner "hello" "info" ⟨0, [], "none"⟩).entries
        = [] ++ [{ msg := "hello", style := none, expiry := none }] ∧
      (unityShowBanner "hello" "info" ⟨0, [], "none"⟩).display = "block" ∧
      ∀ t, (advanceTo t (unityShowBanner "hello" "info" ⟨0, [], "none"⟩)).entries
          = fireExpired t ([] : List BannerEntry)
            ++ [{ msg := "hello", style := none, expiry := none }]) :=
  ⟨by decide, by decide,
   banner_unrecognized "hello" "info" ⟨0, [], "none"⟩ (by decide) (by decide)⟩

/-- C9: a user-agent string matching both an iOS token and `Android` sets
all three device flags true, and every device-class-dependent branch takes
the iOS behaviour: the iOS viewport meta content, the keyboard watcher
installation, and the 2.0 backing-resolution multiplier. -/
theorem dual_ua_takes_ios (ua : String)
    (hi : testIOS ua = true) (ha : testAndroid ua = true) :
    testMobile ua = true ∧ testIOS ua = true ∧ testAndroid ua = true ∧
    viewportMetaContent (testIOS ua)
      = "width=device-width, initial-scale=1.0, maximum-scale=1.0, user-scalable=no, viewport-fit=cover" ∧
    installsKeyboardWatcher (testIOS ua) = true ∧
    backingMultiplier (testIOS ua) = 2 := by
  refine ⟨?_, hi, ha, ?_, ?_, ?_⟩
  · simp only [testMobile, testIOS, testAndroid] at *
    rcases Bool.or_eq_true_iff.mp hi with h | h
    · rcases Bool.or_eq_true_iff.mp h with h' | h' <;> simp [h']
    · simp [h]
  · rw [hi]; rfl
  · rw [hi]; rfl
  · rw [hi]; rfl

/-- C9 witness: the hybrid user-agent string `"iPhone; Android 12"`
matches both token sets and takes the iOS branches. -/
theorem dual_ua_takes_ios_witness :
    testIOS "iPhone; Android 12" = true ∧
    testAndroid "iPhone; Android 12" = true ∧
    (testMobile "iPhone; Android 12" = true ∧
      testIOS "iPhone; Android 12" = true ∧
      testAndroid "iPhone; Android 12" = true ∧
      viewportMetaContent (testIOS "iPhone; Android 12")
        = "width=device-width, initial-scale=1.0, maximum-scale=1.0, user-scalable=no, viewport-fit=cover" ∧
      installsKeyboardWatcher (testIOS "iPhone; Android 12") = true ∧
      backingMultiplier (testIOS "iPhone; Android 12") = 2) :=
  ⟨by decide, by decide,
   dual_ua_takes_ios "iPhone; Android 12" (by decide) (by decide)⟩

end Soundimals
